import Mathlib

/-!
# terraform-provider-lambdabased: the resource lifecycle handler

A shallow embedding of `provider/resource.go`: the three lifecycle callbacks
`resourceCreateUpdate`, `resourceRead`, `resourceDelete`, the helpers
`extractLambdaInformation` and `callLambda`, and the `DiffSuppressFunc` of the
`input` attribute, together with the part of the surrounding libraries they
touch (the resource handle, the Lambda client interface, `fmt.Errorf`,
`uuid.New`).

Go values are represented as follows.
* A Go `string` is a sequence of bytes, `GoString`; string literals of the
  source are written `str "..."`.
* A Go `[]byte` is `Bytes`: `none` is the nil slice, `some bs` a slice holding
  the bytes `bs`.
* A Go pointer or `error` that may be nil is an `Option`.
* A call that may panic returns `Exec`.
-/

namespace LambdaBased

/-! ## Go values -/

/-- Go `string`: an immutable sequence of bytes. -/
abbrev GoString := List (Fin 256)

/-- A string literal of the source (all of them are ASCII, one byte per character). -/
def str (s : String) : GoString := s.toList.map (fun c => Fin.ofNat c.toNat)

/-- Go `[]byte`; `none` is the nil slice. -/
abbrev Bytes := Option GoString

/-- The conversion `[]byte(s)`. -/
def toBytes (s : GoString) : Bytes := some s

/-- The conversion `string(b)`; the nil slice converts to the empty string. -/
def toGoString (b : Bytes) : GoString := b.getD []

/-- Go `error` values: `errorString` is what `errors.New` and `fmt.Errorf` without
`%w` build, `wrapError` is what `fmt.Errorf` with a `%w` verb builds. -/
inductive GoError where
  | errorString (s : GoString)
  | wrapError (msg : GoString) (err : GoError)
  deriving DecidableEq, Repr

/-- The method `Error()`. -/
def GoError.Error : GoError → GoString
  | .errorString s => s
  | .wrapError msg _ => msg

/-- The method `Unwrap()` as used by `errors.Unwrap`. -/
def GoError.Unwrap : GoError → Option GoError
  | .errorString _ => none
  | .wrapError _ err => some err

/-- Outcome of running a Go function body: it returns a value or panics. -/
inductive Exec (α : Type) where
  | returned (v : α)
  | panicked
  deriving DecidableEq, Repr

/-! ## The Lambda client (`lambda.InvokeInput`, `lambda.InvokeOutput`, `LambdaClient`) -/

/-- The enumeration `lambdatypes.InvocationType`. -/
inductive InvocationType where
  | RequestResponse
  | Event
  | DryRun
  deriving DecidableEq, Repr

/-- The fields of `lambda.InvokeInput` that the provider fills in. -/
structure InvokeInput where
  FunctionName : Option GoString
  InvocationType : InvocationType
  Payload : Bytes
  Qualifier : Option GoString
  deriving DecidableEq, Repr

/-- The fields of `lambda.InvokeOutput` that the provider reads. -/
structure InvokeOutput where
  FunctionError : Option GoString
  Payload : Bytes
  deriving DecidableEq, Repr

/-- What `Invoke` returns: `(*lambda.InvokeOutput, error)`. -/
abbrev InvokeReturn := Option InvokeOutput × Option GoError

/-- An implementation of the interface `LambdaClient`. It records every `Invoke`
it receives in `calls`; its answer may depend on the calls received so far. -/
structure LambdaClient where
  calls : List InvokeInput
  respond : List InvokeInput → InvokeInput → InvokeReturn

/-- The interface method `Invoke`. -/
def LambdaClient.Invoke (conn : LambdaClient) (params : InvokeInput) :
    LambdaClient × InvokeReturn :=
  ({ conn with calls := conn.calls ++ [params] }, conn.respond conn.calls params)

/-! ## `uuid.New().String()` -/

/-- A 16-byte UUID (`uuid.UUID`). -/
abbrev UUID := Fin 16 → Fin 256

/-- Version-4 UUID from 16 random bytes, as `uuid.New` builds it: byte 6 gets
version 4, byte 8 the RFC 4122 variant. -/
def uuidNew (random : Fin 16 → Fin 256) : UUID := fun i =>
  if i = 6 then Fin.ofNat ((random 6).val % 16 + 64)
  else if i = 8 then Fin.ofNat ((random 8).val % 64 + 128)
  else random i

/-- One lower-case hexadecimal digit. -/
def hexDigit (n : Nat) : Fin 256 :=
  if n < 10 then Fin.ofNat (48 + n) else Fin.ofNat (87 + n)

/-- Two hexadecimal digits of one byte. -/
def encodeHex (b : Fin 256) : GoString := [hexDigit (b.val / 16), hexDigit (b.val % 16)]

/-- The method `UUID.String()`: `xxxxxxxx-xxxx-xxxx-xxxx-xxxxxxxxxxxx`. -/
def UUID.String (u : UUID) : GoString :=
  encodeHex (u 0) ++ encodeHex (u 1) ++ encodeHex (u 2) ++ encodeHex (u 3) ++ str "-" ++
  encodeHex (u 4) ++ encodeHex (u 5) ++ str "-" ++
  encodeHex (u 6) ++ encodeHex (u 7) ++ str "-" ++
  encodeHex (u 8) ++ encodeHex (u 9) ++ str "-" ++
  encodeHex (u 10) ++ encodeHex (u 11) ++ encodeHex (u 12) ++ encodeHex (u 13) ++
  encodeHex (u 14) ++ encodeHex (u 15)

/-! ## The resource handle (`schema.ResourceData`) -/

/-- The value of `callLambda`'s `data` argument, a `map[string]interface{}` with the
string entries `function_name`, `qualifier` and `input`; also one element of the
`finalizer` list, whose nested schema has exactly these three string attributes. -/
structure LambdaData where
  function_name : GoString
  qualifier : GoString
  input : GoString
  deriving DecidableEq, Repr

/-- The attributes of the schema of `LambdaBasedResource`, typed as the schema types them. -/
structure Attributes where
  function_name : GoString
  qualifier : GoString
  triggers : List (GoString × GoString)
  input : GoString
  conceal_input : Bool
  conceal_result : Bool
  finalizer : List LambdaData
  result : GoString
  deriving DecidableEq, Repr

/-- The raw configuration object (`d.GetRawConfig()`), restricted to the attributes
the provider reads from it: `none` is a null attribute (`IsNull()`), `some s` a
string `s` (`AsString()`). -/
structure RawConfig where
  function_name : Option GoString
  qualifier : Option GoString
  input : Option GoString
  deriving DecidableEq, Repr

/-- The handle `*schema.ResourceData` passed to the lifecycle callbacks.
* `id` is what `d.Id()` returns.
* `state` holds the attributes of the state recorded before the operation.
* `attrs` is the merged view (state, planned difference, values written by `Set`)
  that `d.Get` reads and `d.Set` writes.
* `partialMode` is the flag switched by `d.Partial`. -/
structure ResourceData where
  id : GoString
  state : Attributes
  attrs : Attributes
  rawConfig : RawConfig
  partialMode : Bool
  deriving DecidableEq, Repr

/-- The instance state handed back to the host (`*terraform.InstanceState`). -/
structure InstanceState where
  ID : GoString
  Attributes : Attributes
  deriving DecidableEq, Repr

/-- The method `d.Id()`. -/
def ResourceData.Id (d : ResourceData) : GoString := d.id

/-- The method `d.SetId(v)`. -/
def ResourceData.SetId (d : ResourceData) (v : GoString) : ResourceData := { d with id := v }

/-- The method `d.Partial(enable)`. -/
def ResourceData.Partial (d : ResourceData) (enable : Bool) : ResourceData :=
  { d with partialMode := enable }

/-- The call `d.Set("input", v)`. -/
def ResourceData.SetInput (d : ResourceData) (v : GoString) : ResourceData :=
  { d with attrs := { d.attrs with input := v } }

/-- The call `d.Set("result", v)`. -/
def ResourceData.SetResult (d : ResourceData) (v : GoString) : ResourceData :=
  { d with attrs := { d.attrs with result := v } }

/-- The call `d.GetOk("finalizer")`: the list, and whether it differs from the
zero value of its type (the empty list). -/
def ResourceData.GetOkFinalizer (d : ResourceData) : List LambdaData × Bool :=
  (d.attrs.finalizer, !d.attrs.finalizer.isEmpty)

/-- The method `d.State()` the host calls after a callback: no state when the
identifier is empty; in partial mode the attributes of the previous state,
otherwise the merged view. -/
def ResourceData.State (d : ResourceData) : Option InstanceState :=
  if d.Id = [] then none
  else some { ID := d.Id, Attributes := if d.partialMode then d.state else d.attrs }

/-! ## `provider/resource.go` -/

/-- What a lifecycle callback leaves behind: the handle, the client, the lines
written with `log.Printf`, and the returned `error` (or a panic). -/
structure Outcome where
  d : ResourceData
  meta : LambdaClient
  logged : List GoString
  ret : Exec (Option GoError)

/-- The function `extractLambdaInformation`: for each of `function_name`, `qualifier`
and `input`, the raw configuration's string when the attribute is not null,
otherwise `d.Get` of the attribute. -/
def extractLambdaInformation (d : ResourceData) : LambdaData :=
  { function_name :=
      match d.rawConfig.function_name with
      | some attr => attr
      | none => d.attrs.function_name
    qualifier :=
      match d.rawConfig.qualifier with
      | some attr => attr
      | none => d.attrs.qualifier
    input :=
      match d.rawConfig.input with
      | some attr => attr
      | none => d.attrs.input }

/-- The function `callLambda`: one `Invoke` of type `RequestResponse`; a non-nil
`err` is wrapped (`%w`) into `Lambda Invocation (id) failed: ...`, a non-nil
`FunctionError` gives `Lambda function (name) returned error: (payload)`, and
otherwise the payload is returned. Reading `res.FunctionError` through a nil
`res` panics. -/
def callLambda (id : GoString) (data : LambdaData) (meta : LambdaClient) :
    LambdaClient × Exec (Bytes × Option GoError) :=
  let conn := meta
  let functionName := data.function_name
  let qualifier := data.qualifier
  let input := toBytes data.input
  match conn.Invoke
      { FunctionName := some functionName
        InvocationType := InvocationType.RequestResponse
        Payload := input
        Qualifier := some qualifier } with
  | (conn, _, some err) =>
    (conn, .returned (none, some (.wrapError
      (str "Lambda Invocation (" ++ id ++ str ") failed: " ++ err.Error) err)))
  | (conn, none, none) => (conn, .panicked)
  | (conn, some res, none) =>
    match res.FunctionError with
    | some _ =>
      (conn, .returned (none, some (.errorString
        (str "Lambda function (" ++ functionName ++ str ") returned error: (" ++
          toGoString res.Payload ++ str ")"))))
    | none => (conn, .returned (res.Payload, none))

/-- The function `resourceCreateUpdate` (the `Create` and the `Update` callback).
`newUUID` is the value `uuid.New()` yields if it is called. -/
def resourceCreateUpdate (d : ResourceData) (meta : LambdaClient) (newUUID : UUID) : Outcome :=
  let d := d.Partial true
  let concealInput := d.attrs.conceal_input
  let concealResult := d.attrs.conceal_result
  match callLambda d.Id (extractLambdaInformation d) meta with
  | (meta, .panicked) => { d := d, meta := meta, logged := [], ret := .panicked }
  | (meta, .returned (_, some err)) =>
    { d := d, meta := meta, logged := [], ret := .returned (some err) }
  | (meta, .returned (res, none)) =>
    let d := if d.Id = str "" then d.SetId newUUID.String else d
    let d := if concealInput then d.SetInput (str "") else d
    let d := if concealResult then d.SetResult (str "") else d.SetResult (toGoString res)
    let d := d.Partial false
    { d := d, meta := meta, logged := [], ret := .returned none }

/-- The function `resourceRead` (the `Read` callback). -/
def resourceRead (d : ResourceData) (meta : LambdaClient) : Outcome :=
  { d := d, meta := meta, logged := [], ret := .returned none }

/-- The function `resourceDelete` (the `Delete` callback): when `GetOk("finalizer")`
reports a value and the list has an element, `callLambda` runs on its first element
and an error is returned as it is; in every other case the identifier is
cleared with `d.SetId("")`. The response is logged unless `conceal_result` is set. -/
def resourceDelete (d : ResourceData) (meta : LambdaClient) : Outcome :=
  let concealResult := d.attrs.conceal_result
  let (destroyRaw, ok) := d.GetOkFinalizer
  if ok then
    match destroyRaw with
    | destroy0 :: _ =>
      match callLambda d.Id destroy0 meta with
      | (meta, .panicked) => { d := d, meta := meta, logged := [], ret := .panicked }
      | (meta, .returned (_, some err)) =>
        { d := d, meta := meta, logged := [], ret := .returned (some err) }
      | (meta, .returned (res, none)) =>
        let logged :=
          if !concealResult then
            [d.Id ++ str " received destroy response: " ++ toGoString res ++ str "\n"]
          else []
        { d := d.SetId (str ""), meta := meta, logged := logged, ret := .returned none }
    | [] => { d := d.SetId (str ""), meta := meta, logged := [], ret := .returned none }
  else { d := d.SetId (str ""), meta := meta, logged := [], ret := .returned none }

/-- The `DiffSuppressFunc` of the attribute `input` in the schema of
`LambdaBasedResource`: `d.Get("conceal_input").(bool)`, whatever `k`, `old` and `new` are. -/
def inputDiffSuppressFunc (_k _old _new : GoString) (d : ResourceData) : Bool :=
  d.attrs.conceal_input

/-! ## Vocabulary of the statements -/

/-- The request `callLambda` sends for `data`. -/
def requestOf (data : LambdaData) : InvokeInput :=
  { FunctionName := some data.function_name
    InvocationType := InvocationType.RequestResponse
    Payload := toBytes data.input
    Qualifier := some data.qualifier }

/-- The client after it has received one more request. -/
def LambdaClient.received (conn : LambdaClient) (params : InvokeInput) : LambdaClient :=
  { conn with calls := conn.calls ++ [params] }

/-- The error `callLambda` builds from a transport error `err` of `Invoke`. -/
def invocationFailed (id : GoString) (err : GoError) : GoError :=
  .wrapError (str "Lambda Invocation (" ++ id ++ str ") failed: " ++ err.Error) err

/-- The error `callLambda` builds from a response that carries a function error. -/
def functionReturnedError (functionName : GoString) (payload : Bytes) : GoError :=
  .errorString (str "Lambda function (" ++ functionName ++ str ") returned error: (" ++
    toGoString payload ++ str ")")

/-- The handle a successful `resourceCreateUpdate` leaves, given the payload received. -/
def createdOrUpdated (d : ResourceData) (payload : Bytes) (newUUID : UUID) : ResourceData :=
  { id := if d.id = [] then newUUID.String else d.id
    state := d.state
    attrs :=
      { d.attrs with
        input := if d.attrs.conceal_input then [] else d.attrs.input
        result := if d.attrs.conceal_result then [] else toGoString payload }
    rawConfig := d.rawConfig
    partialMode := false }

/-! ## The orchestration host

The handlers are entered by the host (Terraform through terraform-plugin-sdk), which
reads the configuration against the schema of `LambdaBasedResource`, plans the
attribute differences and enters `Create` or `Update` only when there is something
to apply. The definitions below describe that contract for this one schema. -/

/-- One `finalizer` block as written in the configuration. -/
structure FinalizerConfig where
  function_name : GoString
  qualifier : Option GoString
  input : GoString
  deriving DecidableEq, Repr

/-- A `lambdabased_resource` block as written in the configuration. The required
attributes `function_name` and `input` are present, an optional attribute that is
omitted is `none`. -/
structure Config where
  function_name : GoString
  qualifier : Option GoString
  triggers : List (GoString × GoString)
  input : GoString
  conceal_input : Option Bool
  conceal_result : Option Bool
  finalizer : List FinalizerConfig
  deriving DecidableEq, Repr

/-- The schema's `Default` of `qualifier` (top level and inside `finalizer`). -/
def defaultQualifier : GoString := str "$LATEST"

/-- The zero value of every attribute: what a handle reads when nothing is recorded. -/
def zeroAttributes : Attributes :=
  { function_name := [], qualifier := [], triggers := [], input := [],
    conceal_input := false, conceal_result := false, finalizer := [], result := [] }

/-- The configuration as read through the schema: omitted optional attributes take
their `Default` (`qualifier` is `$LATEST`, the conceal flags are `false`). The
computed attribute `result` is not part of the configuration and keeps the value
`result` given. -/
def Config.attributes (c : Config) (result : GoString) : Attributes :=
  { function_name := c.function_name
    qualifier := c.qualifier.getD defaultQualifier
    triggers := c.triggers
    input := c.input
    conceal_input := c.conceal_input.getD false
    conceal_result := c.conceal_result.getD false
    finalizer := c.finalizer.map fun f =>
      { function_name := f.function_name
        qualifier := f.qualifier.getD defaultQualifier
        input := f.input }
    result := result }

/-- The raw configuration object of a configuration block. -/
def Config.raw (c : Config) : RawConfig :=
  { function_name := some c.function_name, qualifier := c.qualifier, input := some c.input }

/-- The handle the schema difference is computed with: it reads the configuration
over the recorded state. The `DiffSuppressFunc` of `input` receives this handle. -/
def diffHandle (id : GoString) (recorded : Attributes) (c : Config) : ResourceData :=
  { id := id, state := recorded, attrs := c.attributes recorded.result,
    rawConfig := c.raw, partialMode := false }

/-- The attributes planned for a configuration over the recorded ones: every
attribute takes its configured value, except that a difference of `input` that its
`DiffSuppressFunc` suppresses is dropped, so `input` keeps the recorded value. -/
def plannedAttributes (id : GoString) (recorded : Attributes) (c : Config) : Attributes :=
  let configured := c.attributes recorded.result
  { configured with
    input :=
      if inputDiffSuppressFunc (str "input") recorded.input configured.input
          (diffHandle id recorded c) then recorded.input
      else configured.input }

/-- The handle passed to `Create` or `Update`: recorded state merged with the plan. -/
def applyHandle (id : GoString) (recorded : Attributes) (c : Config) : ResourceData :=
  { id := id, state := recorded, attrs := plannedAttributes id recorded c,
    rawConfig := c.raw, partialMode := false }

/-- Whether two values of the map attribute `triggers` are the same map: every key
that occurs in either of them reads the same in both. -/
def sameMap (a b : List (GoString × GoString)) : Bool :=
  (a.map Prod.fst ++ b.map Prod.fst).all fun k => a.lookup k == b.lookup k

/-- Whether the plan holds no attribute difference against the recorded attributes. -/
def attributesUnchanged (planned recorded : Attributes) : Bool :=
  planned.function_name == recorded.function_name &&
  planned.qualifier == recorded.qualifier &&
  sameMap planned.triggers recorded.triggers &&
  planned.input == recorded.input &&
  planned.conceal_input == recorded.conceal_input &&
  planned.conceal_result == recorded.conceal_result &&
  planned.finalizer == recorded.finalizer &&
  planned.result == recorded.result

/-- What one apply of the host leaves: the recorded state, the client, the result. -/
structure Applied where
  state : Option InstanceState
  meta : LambdaClient
  ret : Exec (Option GoError)

/-- One apply of a configuration. Without recorded state the resource is created;
with recorded state `Update` is entered only when the plan holds an attribute
difference against the recorded attributes. The state recorded afterwards is
`d.State()`. -/
def hostApply (recorded : Option InstanceState) (c : Config) (meta : LambdaClient)
    (newUUID : UUID) : Applied :=
  match recorded with
  | none =>
    let o := resourceCreateUpdate (applyHandle [] zeroAttributes c) meta newUUID
    { state := o.d.State, meta := o.meta, ret := o.ret }
  | some s =>
    if attributesUnchanged (plannedAttributes s.ID s.Attributes c) s.Attributes then
      { state := some s, meta := meta, ret := .returned none }
    else
      let o := resourceCreateUpdate (applyHandle s.ID s.Attributes c) meta newUUID
      { state := o.d.State, meta := o.meta, ret := o.ret }

/-- The request that carries a configuration: its function name, its `input`, and its
qualifier or the schema default. -/
def configuredRequest (c : Config) : InvokeInput :=
  { FunctionName := some c.function_name
    InvocationType := InvocationType.RequestResponse
    Payload := toBytes c.input
    Qualifier := some (c.qualifier.getD defaultQualifier) }

/-! ## The fixtures of `resource_test.go` -/

/-- The mock client of the tests: it answers every request with `answer`. -/
def mockClient (answer : InvokeReturn) : LambdaClient :=
  { calls := [], respond := fun _ _ => answer }

/-- The test helper `createLambdaInvokeOutput`. -/
def createLambdaInvokeOutput (functionError : Bool) : InvokeOutput :=
  { FunctionError := if functionError then some (str "lambda-return-expected-error") else none
    Payload := toBytes (str "result-val") }

/-- The transport error of the tests, `fmt.Errorf("this-error-is-expected")`. -/
def expectedError : GoError := .errorString (str "this-error-is-expected")

/-- The test helper `getInputJson`. -/
def getInputJson (param : GoString) : GoString := str "\x7b\"param\":\"" ++ param ++ str "\"\x7d"

/-- The configuration `generateTestConfig` renders for `newConfigParameters()`. -/
def testConfig : Config :=
  { function_name := str "func-createupdate-name-1"
    qualifier := some (str "$LATEST")
    triggers := [(str "trig_key", str "trigger-param-val")]
    input := getInputJson (str "createupdate-input-param-val")
    conceal_input := some false
    conceal_result := some false
    finalizer :=
      [{ function_name := str "func-destroy-name-1"
         qualifier := some (str "$LATEST")
         input := getInputJson (str "destroy-input-param-val") }] }

/-- The handle of the first create of `testConfig`. -/
def testCreateHandle : ResourceData := applyHandle [] zeroAttributes testConfig

/-- A UUID for the examples (all random bytes zero). -/
def testUUID : UUID := uuidNew fun _ => 0

/-- The handle of an existing resource of `testConfig`, as a successful create records it. -/
def testExistingHandle : ResourceData :=
  { id := testUUID.String
    state := testConfig.attributes (str "result-val")
    attrs := testConfig.attributes (str "result-val")
    rawConfig := testConfig.raw
    partialMode := false }

/-- The configuration of `TestLambdaBasedResource_concealedInput` with the given input
parameter: `conceal_input` is true and there is no finalizer block. -/
def concealedConfig (inputParam : GoString) : Config :=
  { testConfig with
    input := getInputJson inputParam
    conceal_input := some true
    finalizer := [] }

/-- The state the first step of `TestLambdaBasedResource_concealedInput` records: the
`input` is blanked, the `result` is kept. -/
def concealedState : InstanceState :=
  { ID := testUUID.String
    Attributes :=
      { (concealedConfig (str "createupdate-input-param-val")).attributes (str "result-val") with
        input := str "" } }

/-! ## `callLambda`, case by case -/

theorem callLambda_transport (id : GoString) (data : LambdaData) (meta : LambdaClient)
    (res : Option InvokeOutput) (e : GoError)
    (h : meta.respond meta.calls (requestOf data) = (res, some e)) :
    callLambda id data meta =
      (meta.received (requestOf data), .returned (none, some (invocationFailed id e))) := by
  have h' := h
  simp only [requestOf] at h'
  simp only [callLambda, LambdaClient.Invoke, h']
  rfl

theorem callLambda_functionError (id : GoString) (data : LambdaData) (meta : LambdaClient)
    (out : InvokeOutput) (fe : GoString)
    (h : meta.respond meta.calls (requestOf data) = (some out, none))
    (hfe : out.FunctionError = some fe) :
    callLambda id data meta =
      (meta.received (requestOf data),
        .returned (none, some (functionReturnedError data.function_name out.Payload))) := by
  have h' := h
  simp only [requestOf] at h'
  simp only [callLambda, LambdaClient.Invoke, h', hfe]
  rfl

theorem callLambda_payload (id : GoString) (data : LambdaData) (meta : LambdaClient)
    (out : InvokeOutput)
    (h : meta.respond meta.calls (requestOf data) = (some out, none))
    (hfe : out.FunctionError = none) :
    callLambda id data meta =
      (meta.received (requestOf data), .returned (out.Payload, none)) := by
  have h' := h
  simp only [requestOf] at h'
  simp only [callLambda, LambdaClient.Invoke, h', hfe]
  rfl

theorem callLambda_nil (id : GoString) (data : LambdaData) (meta : LambdaClient)
    (h : meta.respond meta.calls (requestOf data) = (none, none)) :
    callLambda id data meta = (meta.received (requestOf data), .panicked) := by
  have h' := h
  simp only [requestOf] at h'
  simp only [callLambda, LambdaClient.Invoke, h']
  rfl

/-- Whatever the client answers, `callLambda` hands it exactly one request. -/
theorem callLambda_client (id : GoString) (data : LambdaData) (meta : LambdaClient) :
    (callLambda id data meta).1 = meta.received (requestOf data) := by
  rcases h : meta.respond meta.calls (requestOf data) with ⟨res, err⟩
  cases err with
  | some e => rw [callLambda_transport id data meta res e h]
  | none =>
    cases res with
    | none => rw [callLambda_nil id data meta h]
    | some out =>
      cases hfe : out.FunctionError with
      | none => rw [callLambda_payload id data meta out h hfe]
      | some fe => rw [callLambda_functionError id data meta out fe h hfe]

/-- The UUID text is never the empty string. -/
theorem UUID.String_ne_nil (u : UUID) : u.String ≠ [] := by
  simp [UUID.String, encodeHex]

/-! ## `resourceCreateUpdate`, case by case -/

theorem resourceCreateUpdate_transport (d : ResourceData) (meta : LambdaClient) (u : UUID)
    (res : Option InvokeOutput) (e : GoError)
    (h : meta.respond meta.calls (requestOf (extractLambdaInformation d)) = (res, some e)) :
    resourceCreateUpdate d meta u =
      { d := d.Partial true, meta := meta.received (requestOf (extractLambdaInformation d)),
        logged := [], ret := .returned (some (invocationFailed d.Id e)) } := by
  have hc := callLambda_transport d.Id (extractLambdaInformation d) meta res e h
  have hd : extractLambdaInformation (d.Partial true) = extractLambdaInformation d := rfl
  have hi : (d.Partial true).Id = d.Id := rfl
  simp only [resourceCreateUpdate, hd, hi, hc]

theorem resourceCreateUpdate_functionError (d : ResourceData) (meta : LambdaClient) (u : UUID)
    (out : InvokeOutput) (fe : GoString)
    (h : meta.respond meta.calls (requestOf (extractLambdaInformation d)) = (some out, none))
    (hfe : out.FunctionError = some fe) :
    resourceCreateUpdate d meta u =
      { d := d.Partial true, meta := meta.received (requestOf (extractLambdaInformation d)),
        logged := [],
        ret := .returned (some
          (functionReturnedError (extractLambdaInformation d).function_name out.Payload)) } := by
  have hc := callLambda_functionError d.Id (extractLambdaInformation d) meta out fe h hfe
  have hd : extractLambdaInformation (d.Partial true) = extractLambdaInformation d := rfl
  have hi : (d.Partial true).Id = d.Id := rfl
  simp only [resourceCreateUpdate, hd, hi, hc]

theorem resourceCreateUpdate_nil (d : ResourceData) (meta : LambdaClient) (u : UUID)
    (h : meta.respond meta.calls (requestOf (extractLambdaInformation d)) = (none, none)) :
    resourceCreateUpdate d meta u =
      { d := d.Partial true, meta := meta.received (requestOf (extractLambdaInformation d)),
        logged := [], ret := .panicked } := by
  have hc := callLambda_nil d.Id (extractLambdaInformation d) meta h
  have hd : extractLambdaInformation (d.Partial true) = extractLambdaInformation d := rfl
  have hi : (d.Partial true).Id = d.Id := rfl
  simp only [resourceCreateUpdate, hd, hi, hc]

theorem resourceCreateUpdate_payload (d : ResourceData) (meta : LambdaClient) (u : UUID)
    (out : InvokeOutput)
    (h : meta.respond meta.calls (requestOf (extractLambdaInformation d)) = (some out, none))
    (hfe : out.FunctionError = none) :
    resourceCreateUpdate d meta u =
      { d := createdOrUpdated d out.Payload u,
        meta := meta.received (requestOf (extractLambdaInformation d)),
        logged := [], ret := .returned none } := by
  have hc := callLambda_payload d.Id (extractLambdaInformation d) meta out h hfe
  have hd : extractLambdaInformation (d.Partial true) = extractLambdaInformation d := rfl
  have hi : (d.Partial true).Id = d.Id := rfl
  simp only [resourceCreateUpdate, hd, hi, hc]
  obtain ⟨id, st, av, rc, pm⟩ := d
  by_cases h1 : id = [] <;> cases hci : av.conceal_input <;> cases hcr : av.conceal_result <;>
    simp [createdOrUpdated, ResourceData.Partial, ResourceData.Id, ResourceData.SetId,
      ResourceData.SetInput, ResourceData.SetResult, str, h1, hci, hcr]

/-- An error return of `resourceCreateUpdate` leaves the handle as it was, in partial mode. -/
theorem resourceCreateUpdate_error_handle (d : ResourceData) (meta : LambdaClient) (u : UUID)
    (err : GoError) (h : (resourceCreateUpdate d meta u).ret = .returned (some err)) :
    (resourceCreateUpdate d meta u).d = d.Partial true := by
  rcases hr : meta.respond meta.calls (requestOf (extractLambdaInformation d)) with ⟨res, e⟩
  cases e with
  | some e => rw [resourceCreateUpdate_transport d meta u res e hr]
  | none =>
    cases res with
    | none => rw [resourceCreateUpdate_nil d meta u hr]
    | some out =>
      cases hfe : out.FunctionError with
      | some fe => rw [resourceCreateUpdate_functionError d meta u out fe hr hfe]
      | none =>
        rw [resourceCreateUpdate_payload d meta u out hr hfe] at h
        simp at h

/-- A nil return of `resourceCreateUpdate` comes from a response without function error. -/
theorem resourceCreateUpdate_success_handle (d : ResourceData) (meta : LambdaClient) (u : UUID)
    (h : (resourceCreateUpdate d meta u).ret = .returned none) :
    ∃ out, meta.respond meta.calls (requestOf (extractLambdaInformation d)) = (some out, none) ∧
      out.FunctionError = none ∧
      (resourceCreateUpdate d meta u).d = createdOrUpdated d out.Payload u := by
  rcases hr : meta.respond meta.calls (requestOf (extractLambdaInformation d)) with ⟨res, e⟩
  cases e with
  | some e =>
    rw [resourceCreateUpdate_transport d meta u res e hr] at h
    simp at h
  | none =>
    cases res with
    | none =>
      rw [resourceCreateUpdate_nil d meta u hr] at h
      simp at h
    | some out =>
      cases hfe : out.FunctionError with
      | some fe =>
        rw [resourceCreateUpdate_functionError d meta u out fe hr hfe] at h
        simp at h
      | none =>
        exact ⟨out, rfl, hfe, by rw [resourceCreateUpdate_payload d meta u out hr hfe]⟩

/-- An error return of `resourceCreateUpdate` comes from a transport error or from a
response that carries a function error. -/
theorem resourceCreateUpdate_error_cause (d : ResourceData) (meta : LambdaClient) (u : UUID)
    (err : GoError) (h : (resourceCreateUpdate d meta u).ret = .returned (some err)) :
    (∃ res e, meta.respond meta.calls (requestOf (extractLambdaInformation d)) = (res, some e) ∧
      err = invocationFailed d.Id e) ∨
    (∃ out fe, meta.respond meta.calls (requestOf (extractLambdaInformation d)) = (some out, none) ∧
      out.FunctionError = some fe ∧
      err = functionReturnedError (extractLambdaInformation d).function_name out.Payload) := by
  rcases hr : meta.respond meta.calls (requestOf (extractLambdaInformation d)) with ⟨res, e⟩
  cases e with
  | some e =>
    rw [resourceCreateUpdate_transport d meta u res e hr] at h
    simp at h
    exact Or.inl ⟨res, e, rfl, h.symm⟩
  | none =>
    cases res with
    | none =>
      rw [resourceCreateUpdate_nil d meta u hr] at h
      simp at h
    | some out =>
      cases hfe : out.FunctionError with
      | some fe =>
        rw [resourceCreateUpdate_functionError d meta u out fe hr hfe] at h
        simp at h
        exact Or.inr ⟨out, fe, rfl, hfe, h.symm⟩
      | none =>
        rw [resourceCreateUpdate_payload d meta u out hr hfe] at h
        simp at h

/-- Whatever the client answers, `resourceCreateUpdate` hands it exactly one request. -/
theorem resourceCreateUpdate_client (d : ResourceData) (meta : LambdaClient) (u : UUID) :
    (resourceCreateUpdate d meta u).meta =
      meta.received (requestOf (extractLambdaInformation d)) := by
  rcases hr : meta.respond meta.calls (requestOf (extractLambdaInformation d)) with ⟨res, e⟩
  cases e with
  | some e => rw [resourceCreateUpdate_transport d meta u res e hr]
  | none =>
    cases res with
    | none => rw [resourceCreateUpdate_nil d meta u hr]
    | some out =>
      cases hfe : out.FunctionError with
      | some fe => rw [resourceCreateUpdate_functionError d meta u out fe hr hfe]
      | none => rw [resourceCreateUpdate_payload d meta u out hr hfe]

/-! ## `resourceDelete`, case by case -/

theorem resourceDelete_noFinalizer (d : ResourceData) (meta : LambdaClient)
    (h : d.attrs.finalizer = []) :
    resourceDelete d meta =
      { d := d.SetId [], meta := meta, logged := [], ret := .returned none } := by
  simp [resourceDelete, ResourceData.GetOkFinalizer, h, str]

theorem resourceDelete_transport (d : ResourceData) (meta : LambdaClient)
    (fin : LambdaData) (rest : List LambdaData) (res : Option InvokeOutput) (e : GoError)
    (hf : d.attrs.finalizer = fin :: rest)
    (h : meta.respond meta.calls (requestOf fin) = (res, some e)) :
    resourceDelete d meta =
      { d := d, meta := meta.received (requestOf fin), logged := [],
        ret := .returned (some (invocationFailed d.Id e)) } := by
  have hc := callLambda_transport d.Id fin meta res e h
  simp [resourceDelete, ResourceData.GetOkFinalizer, hf, hc]

theorem resourceDelete_functionError (d : ResourceData) (meta : LambdaClient)
    (fin : LambdaData) (rest : List LambdaData) (out : InvokeOutput) (fe : GoString)
    (hf : d.attrs.finalizer = fin :: rest)
    (h : meta.respond meta.calls (requestOf fin) = (some out, none))
    (hfe : out.FunctionError = some fe) :
    resourceDelete d meta =
      { d := d, meta := meta.received (requestOf fin), logged := [],
        ret := .returned (some (functionReturnedError fin.function_name out.Payload)) } := by
  have hc := callLambda_functionError d.Id fin meta out fe h hfe
  simp [resourceDelete, ResourceData.GetOkFinalizer, hf, hc]

theorem resourceDelete_nil (d : ResourceData) (meta : LambdaClient)
    (fin : LambdaData) (rest : List LambdaData)
    (hf : d.attrs.finalizer = fin :: rest)
    (h : meta.respond meta.calls (requestOf fin) = (none, none)) :
    resourceDelete d meta =
      { d := d, meta := meta.received (requestOf fin), logged := [], ret := .panicked } := by
  have hc := callLambda_nil d.Id fin meta h
  simp [resourceDelete, ResourceData.GetOkFinalizer, hf, hc]

theorem resourceDelete_payload (d : ResourceData) (meta : LambdaClient)
    (fin : LambdaData) (rest : List LambdaData) (out : InvokeOutput)
    (hf : d.attrs.finalizer = fin :: rest)
    (h : meta.respond meta.calls (requestOf fin) = (some out, none))
    (hfe : out.FunctionError = none) :
    resourceDelete d meta =
      { d := d.SetId [], meta := meta.received (requestOf fin),
        logged :=
          if d.attrs.conceal_result then []
          else [d.Id ++ str " received destroy response: " ++ toGoString out.Payload ++ str "\n"],
        ret := .returned none } := by
  have hc := callLambda_payload d.Id fin meta out h hfe
  cases hcr : d.attrs.conceal_result <;>
    simp [resourceDelete, ResourceData.GetOkFinalizer, hf, hc, hcr, str]

/-- With a finalizer block, `resourceDelete` hands the client exactly one request. -/
theorem resourceDelete_client (d : ResourceData) (meta : LambdaClient)
    (fin : LambdaData) (rest : List LambdaData) (hf : d.attrs.finalizer = fin :: rest) :
    (resourceDelete d meta).meta = meta.received (requestOf fin) := by
  rcases hr : meta.respond meta.calls (requestOf fin) with ⟨res, e⟩
  cases e with
  | some e => rw [resourceDelete_transport d meta fin rest res e hf hr]
  | none =>
    cases res with
    | none => rw [resourceDelete_nil d meta fin rest hf hr]
    | some out =>
      cases hfe : out.FunctionError with
      | some fe => rw [resourceDelete_functionError d meta fin rest out fe hf hr hfe]
      | none => rw [resourceDelete_payload d meta fin rest out hf hr hfe]

/-! ## The host's plan and apply -/

/-- The map comparison `sameMap` holds exactly when every key reads the same in both. -/
theorem sameMap_iff (a b : List (GoString × GoString)) :
    sameMap a b = true ↔ ∀ k, a.lookup k = b.lookup k := by
  constructor
  · intro h k
    by_cases hk : k ∈ a.map Prod.fst ++ b.map Prod.fst
    · have := (List.all_eq_true.mp h) k hk
      simpa using this
    · have ha : a.lookup k = none := by
        rw [List.lookup_eq_none_iff]
        intro p hp
        rw [bne_iff_ne]
        intro hkp
        apply hk
        rw [List.mem_append]
        left
        rw [List.mem_map]
        exact ⟨p, hp, hkp.symm⟩
      have hb : b.lookup k = none := by
        rw [List.lookup_eq_none_iff]
        intro p hp
        rw [bne_iff_ne]
        intro hkp
        apply hk
        rw [List.mem_append]
        right
        rw [List.mem_map]
        exact ⟨p, hp, hkp.symm⟩
      rw [ha, hb]
  · intro h
    unfold sameMap
    rw [List.all_eq_true]
    intro k _
    simp [h k]

theorem sameMap_self (a : List (GoString × GoString)) : sameMap a a = true :=
  (sameMap_iff a a).mpr fun _ => rfl

theorem attributesUnchanged_self (a : Attributes) : attributesUnchanged a a = true := by
  simp [attributesUnchanged, sameMap_self]

/-- The request `resourceCreateUpdate` builds from a handle the host prepared is the
request that carries the configuration. -/
theorem applyHandle_request (id : GoString) (recorded : Attributes) (c : Config) :
    requestOf (extractLambdaInformation (applyHandle id recorded c)) = configuredRequest c := by
  cases hq : c.qualifier <;>
    simp [requestOf, extractLambdaInformation, applyHandle, plannedAttributes, Config.raw,
      Config.attributes, configuredRequest, hq]

/-- An apply whose plan holds a difference hands the client exactly one request. -/
theorem hostApply_changed (s : InstanceState) (c : Config) (meta : LambdaClient) (u : UUID)
    (h : attributesUnchanged (plannedAttributes s.ID s.Attributes c) s.Attributes = false) :
    (hostApply (some s) c meta u).meta.calls = meta.calls ++ [configuredRequest c] := by
  simp only [hostApply, h]
  rw [resourceCreateUpdate_client, applyHandle_request]
  rfl

/-- What a successful `resourceCreateUpdate` on a handle the host prepared records. -/
theorem applyHandle_success_recorded (id : GoString) (recorded : Attributes) (c : Config)
    (meta : LambdaClient) (u : UUID) (s : InstanceState)
    (hret : (resourceCreateUpdate (applyHandle id recorded c) meta u).ret = .returned none)
    (hstate : (resourceCreateUpdate (applyHandle id recorded c) meta u).d.State = some s) :
    s.Attributes.triggers = c.triggers ∧
    (c.conceal_input.getD false = false → s.Attributes.input = c.input) := by
  obtain ⟨out, _, _, hd⟩ := resourceCreateUpdate_success_handle _ meta u hret
  rw [hd] at hstate
  simp only [ResourceData.State, ResourceData.Id] at hstate
  split at hstate
  · simp at hstate
  · simp only [Option.some.injEq] at hstate
    subst hstate
    constructor
    · simp [createdOrUpdated, applyHandle, plannedAttributes, Config.attributes]
    · intro hc
      simp [createdOrUpdated, applyHandle, plannedAttributes, Config.attributes,
        inputDiffSuppressFunc, diffHandle, hc]

/-- After a successful apply of a configuration, the recorded `triggers` are the
configured map, and the recorded `input` is the configured one unless it is concealed. -/
theorem hostApply_success_recorded (recorded : Option InstanceState) (c : Config)
    (meta : LambdaClient) (u : UUID) (s : InstanceState)
    (hret : (hostApply recorded c meta u).ret = .returned none)
    (hstate : (hostApply recorded c meta u).state = some s) :
    sameMap s.Attributes.triggers c.triggers = true ∧
    (c.conceal_input.getD false = false → s.Attributes.input = c.input) := by
  cases recorded with
  | none =>
    simp only [hostApply] at hret hstate
    obtain ⟨ht, hi⟩ := applyHandle_success_recorded [] zeroAttributes c meta u s hret hstate
    exact ⟨by rw [ht]; exact sameMap_self _, hi⟩
  | some p =>
    by_cases hun : attributesUnchanged (plannedAttributes p.ID p.Attributes c) p.Attributes = true
    · simp only [hostApply, hun, if_true, Option.some.injEq] at hstate
      subst hstate
      simp only [attributesUnchanged, Bool.and_eq_true, beq_iff_eq] at hun
      obtain ⟨⟨⟨⟨⟨⟨⟨_, _⟩, htr⟩, hin⟩, _⟩, _⟩, _⟩, _⟩ := hun
      constructor
      · rw [sameMap_iff] at htr ⊢
        intro k
        exact (htr k).symm
      · intro hc
        rw [← hin]
        simp [plannedAttributes, Config.attributes, inputDiffSuppressFunc, diffHandle, hc]
    · simp only [hostApply, hun] at hret hstate
      obtain ⟨ht, hi⟩ := applyHandle_success_recorded p.ID p.Attributes c meta u s hret hstate
      exact ⟨by rw [ht]; exact sameMap_self _, hi⟩

/-! ## Properties of the lifecycle handlers -/

/-- C1: when `resourceCreateUpdate` returns an error, which happens only on a transport
error of the client or on a response that carries a function error, the handle has
the identifier, the `input`, the `result`, every other attribute, the recorded state
and the raw configuration it had before the call; the state handed back to the host
is the one recorded before the call; and an identifier that was empty is still
empty. The handle differs from the one before the call in nothing but the partial
mode switched on by `d.Partial(true)`, which is what makes `d.State()` hand back the
recorded state. -/
theorem resourceCreateUpdate_failure_keeps_record (d : ResourceData) (meta : LambdaClient)
    (u : UUID) (err : GoError)
    (h : (resourceCreateUpdate d meta u).ret = .returned (some err)) :
    ((∃ res e, meta.respond meta.calls (requestOf (extractLambdaInformation d)) = (res, some e)) ∨
      (∃ out fe, meta.respond meta.calls (requestOf (extractLambdaInformation d)) = (some out, none) ∧
        out.FunctionError = some fe)) ∧
    (resourceCreateUpdate d meta u).d.Id = d.Id ∧
    (resourceCreateUpdate d meta u).d.attrs.input = d.attrs.input ∧
    (resourceCreateUpdate d meta u).d.attrs.result = d.attrs.result ∧
    (resourceCreateUpdate d meta u).d.attrs = d.attrs ∧
    (resourceCreateUpdate d meta u).d.state = d.state ∧
    (resourceCreateUpdate d meta u).d.rawConfig = d.rawConfig ∧
    (resourceCreateUpdate d meta u).d.State =
      (if d.Id = [] then none else some { ID := d.Id, Attributes := d.state }) ∧
    (d.Id = [] → (resourceCreateUpdate d meta u).d.Id = [] ∧
      (resourceCreateUpdate d meta u).d.State = none) ∧
    (resourceCreateUpdate d meta u).d = d.Partial true := by
  have hd := resourceCreateUpdate_error_handle d meta u err h
  have hcause : (∃ res e, meta.respond meta.calls (requestOf (extractLambdaInformation d)) =
        (res, some e)) ∨
      (∃ out fe, meta.respond meta.calls (requestOf (extractLambdaInformation d)) =
        (some out, none) ∧ out.FunctionError = some fe) := by
    rcases resourceCreateUpdate_error_cause d meta u err h with ⟨res, e, hr, _⟩ | ⟨out, fe, hr, hfe, _⟩
    · exact Or.inl ⟨res, e, hr⟩
    · exact Or.inr ⟨out, fe, hr, hfe⟩
  rw [hd]
  refine ⟨hcause, rfl, rfl, rfl, rfl, rfl, rfl, ?_, ?_, rfl⟩
  · simp [ResourceData.State, ResourceData.Partial, ResourceData.Id]
  · intro h0
    simp [ResourceData.State, ResourceData.Partial, ResourceData.Id] at h0 ⊢
    exact h0

/-- C1 at the first failing step of `TestLambdaBasedResource_lambdaError`: the client
returns a transport error on the first create. -/
theorem resourceCreateUpdate_failure_keeps_record_witness :
    (resourceCreateUpdate testCreateHandle
        (mockClient (some (createLambdaInvokeOutput false), some expectedError)) testUUID).ret =
      .returned (some (invocationFailed [] expectedError)) ∧
    (resourceCreateUpdate testCreateHandle
        (mockClient (some (createLambdaInvokeOutput false), some expectedError)) testUUID).d.Id = [] ∧
    (resourceCreateUpdate testCreateHandle
        (mockClient (some (createLambdaInvokeOutput false), some expectedError)) testUUID).d.attrs =
      testCreateHandle.attrs ∧
    (resourceCreateUpdate testCreateHandle
        (mockClient (some (createLambdaInvokeOutput false), some expectedError)) testUUID).d.State =
      none :=
  have h : (resourceCreateUpdate testCreateHandle
        (mockClient (some (createLambdaInvokeOutput false), some expectedError)) testUUID).ret =
      .returned (some (invocationFailed [] expectedError)) := by decide
  have t := resourceCreateUpdate_failure_keeps_record testCreateHandle
    (mockClient (some (createLambdaInvokeOutput false), some expectedError)) testUUID _ h
  ⟨h, t.2.1, t.2.2.2.2.1, (t.2.2.2.2.2.2.2.2.1 rfl).2⟩

/-- C2: when `resourceCreateUpdate` succeeds, the identifier afterwards is not empty;
an identifier that was not empty before the call is unchanged, and an empty one is
replaced by the text of the fresh UUID. -/
theorem resourceCreateUpdate_success_identifier (d : ResourceData) (meta : LambdaClient)
    (u : UUID) (h : (resourceCreateUpdate d meta u).ret = .returned none) :
    (resourceCreateUpdate d meta u).d.Id ≠ str "" ∧
    (d.Id ≠ str "" → (resourceCreateUpdate d meta u).d.Id = d.Id) ∧
    (d.Id = str "" → (resourceCreateUpdate d meta u).d.Id = u.String) := by
  obtain ⟨out, _, _, hd⟩ := resourceCreateUpdate_success_handle d meta u h
  rw [hd]
  have hs : str "" = [] := rfl
  rw [hs]
  by_cases h0 : d.id = []
  · simp [createdOrUpdated, ResourceData.Id, h0, UUID.String_ne_nil]
  · simp [createdOrUpdated, ResourceData.Id, h0]

/-- C2 at the first step of `TestLambdaBasedResource_basicLifecycle`: a successful first
create assigns an identifier. -/
theorem resourceCreateUpdate_success_identifier_witness :
    (resourceCreateUpdate testCreateHandle
        (mockClient (some (createLambdaInvokeOutput false), none)) testUUID).d.Id ≠ str "" ∧
    (resourceCreateUpdate testCreateHandle
        (mockClient (some (createLambdaInvokeOutput false), none)) testUUID).d.Id =
      str "00000000-0000-4000-8000-000000000000" :=
  have t := resourceCreateUpdate_success_identifier testCreateHandle
    (mockClient (some (createLambdaInvokeOutput false), none)) testUUID (by decide)
  ⟨t.1, (t.2.2 rfl).trans (by decide)⟩

/-- C3: when the client answers the request with a response whose function error is
set and with no transport error, `callLambda` returns an error and the nil payload;
the error's message is `Lambda function (<function name>) returned error: (<payload>)`
and so contains the response payload and the invoked function name verbatim;
`resourceCreateUpdate` and `resourceDelete` return this error instead of succeeding. -/
theorem callLambda_function_error_fails (id : GoString) (data : LambdaData)
    (meta : LambdaClient) (out : InvokeOutput) (fe : GoString)
    (hresp : meta.respond meta.calls (requestOf data) = (some out, none))
    (hfe : out.FunctionError = some fe) :
    (callLambda id data meta).2 =
      .returned (none, some (functionReturnedError data.function_name out.Payload)) ∧
    (functionReturnedError data.function_name out.Payload).Error =
      str "Lambda function (" ++ data.function_name ++ str ") returned error: (" ++
        toGoString out.Payload ++ str ")" ∧
    (∃ before after, (functionReturnedError data.function_name out.Payload).Error =
      before ++ toGoString out.Payload ++ after) ∧
    (∃ before after, (functionReturnedError data.function_name out.Payload).Error =
      before ++ data.function_name ++ after) ∧
    (∀ (d : ResourceData) (u : UUID), extractLambdaInformation d = data →
      (resourceCreateUpdate d meta u).ret =
        .returned (some (functionReturnedError data.function_name out.Payload))) ∧
    (∀ (d : ResourceData) (rest : List LambdaData), d.attrs.finalizer = data :: rest →
      (resourceDelete d meta).ret =
        .returned (some (functionReturnedError data.function_name out.Payload))) := by
  refine ⟨?_, rfl, ?_, ?_, ?_, ?_⟩
  · rw [callLambda_functionError id data meta out fe hresp hfe]
  · exact ⟨str "Lambda function (" ++ data.function_name ++ str ") returned error: (",
      str ")", by simp [functionReturnedError, GoError.Error]⟩
  · exact ⟨str "Lambda function (",
      str ") returned error: (" ++ toGoString out.Payload ++ str ")",
      by simp [functionReturnedError, GoError.Error]⟩
  · intro d u hd
    subst hd
    rw [resourceCreateUpdate_functionError d meta u out fe hresp hfe]
  · intro d rest hf
    rw [resourceDelete_functionError d meta data rest out fe hf hresp hfe]

/-- C3 at the step `lambda returning error` of `TestLambdaBasedResource_lambdaError`:
the error message carries the payload `result-val`. -/
theorem callLambda_function_error_fails_witness :
    (callLambda [] (extractLambdaInformation testCreateHandle)
        (mockClient (some (createLambdaInvokeOutput true), none))).2 =
      .returned (none, some (.errorString
        (str "Lambda function (func-createupdate-name-1) returned error: (result-val)"))) ∧
    (resourceCreateUpdate testCreateHandle
        (mockClient (some (createLambdaInvokeOutput true), none)) testUUID).ret =
      .returned (some (.errorString
        (str "Lambda function (func-createupdate-name-1) returned error: (result-val)"))) :=
  have t := callLambda_function_error_fails [] (extractLambdaInformation testCreateHandle)
    (mockClient (some (createLambdaInvokeOutput true), none)) (createLambdaInvokeOutput true)
    (str "lambda-return-expected-error") rfl rfl
  ⟨t.1.trans (by decide), (t.2.2.2.2.1 testCreateHandle testUUID rfl).trans (by decide)⟩

/-- C4: when `Invoke` returns the transport error `e`, `callLambda` returns an error
and the nil payload after exactly one `Invoke`; the error wraps `e` and its message
`Lambda Invocation (<id>) failed: <message of e>` ends with the message of `e`;
`resourceCreateUpdate` and `resourceDelete` return that error to the host, after
exactly one `Invoke` and no further one. -/
theorem callLambda_transport_error_propagates (id : GoString) (data : LambdaData)
    (meta : LambdaClient) (res : Option InvokeOutput) (e : GoError)
    (hresp : meta.respond meta.calls (requestOf data) = (res, some e)) :
    (callLambda id data meta).2 = .returned (none, some (invocationFailed id e)) ∧
    (callLambda id data meta).1.calls = meta.calls ++ [requestOf data] ∧
    (invocationFailed id e).Unwrap = some e ∧
    (invocationFailed id e).Error = str "Lambda Invocation (" ++ id ++ str ") failed: " ++ e.Error ∧
    (∃ before after, (invocationFailed id e).Error = before ++ e.Error ++ after) ∧
    (∀ (d : ResourceData) (u : UUID), d.Id = id → extractLambdaInformation d = data →
      (resourceCreateUpdate d meta u).ret = .returned (some (invocationFailed id e)) ∧
      (resourceCreateUpdate d meta u).meta.calls = meta.calls ++ [requestOf data]) ∧
    (∀ (d : ResourceData) (rest : List LambdaData), d.Id = id →
      d.attrs.finalizer = data :: rest →
      (resourceDelete d meta).ret = .returned (some (invocationFailed id e)) ∧
      (resourceDelete d meta).meta.calls = meta.calls ++ [requestOf data]) := by
  refine ⟨?_, ?_, rfl, rfl, ?_, ?_, ?_⟩
  · rw [callLambda_transport id data meta res e hresp]
  · rw [callLambda_client]
    rfl
  · exact ⟨str "Lambda Invocation (" ++ id ++ str ") failed: ", [],
      by simp [invocationFailed, GoError.Error]⟩
  · intro d u hid hd
    subst hid hd
    rw [resourceCreateUpdate_transport d meta u res e hresp]
    exact ⟨rfl, rfl⟩
  · intro d rest hid hf
    subst hid
    rw [resourceDelete_transport d meta data rest res e hf hresp]
    exact ⟨rfl, rfl⟩

/-- C4 at the step `error while calling` of `TestLambdaBasedResource_finalizerLambdaError`:
the delete of an existing resource returns the wrapped transport error after one call. -/
theorem callLambda_transport_error_propagates_witness :
    (resourceDelete testExistingHandle
        (mockClient (some (createLambdaInvokeOutput false), some expectedError))).ret =
      .returned (some (.wrapError
        (str "Lambda Invocation (00000000-0000-4000-8000-000000000000) failed: this-error-is-expected")
        expectedError)) ∧
    (resourceDelete testExistingHandle
        (mockClient (some (createLambdaInvokeOutput false), some expectedError))).meta.calls =
      [{ FunctionName := some (str "func-destroy-name-1")
         InvocationType := InvocationType.RequestResponse
         Payload := some (str "\x7b\"param\":\"destroy-input-param-val\"\x7d")
         Qualifier := some (str "$LATEST") }] :=
  have t := callLambda_transport_error_propagates testExistingHandle.Id
    { function_name := str "func-destroy-name-1", qualifier := str "$LATEST",
      input := getInputJson (str "destroy-input-param-val") }
    (mockClient (some (createLambdaInvokeOutput false), some expectedError))
    (some (createLambdaInvokeOutput false)) expectedError rfl
  have r := t.2.2.2.2.2.2 testExistingHandle [] rfl (by decide)
  ⟨r.1.trans (by decide), r.2.trans (by decide)⟩

/-- C5: after a successful `resourceCreateUpdate` the `input` of the handle, which is
the `input` of the state handed back to the host, is the empty string when
`conceal_input` is true and is the value it had before the call when `conceal_input`
is false; in a handle the host prepares for a configuration whose `conceal_input` is
false that value is the configured `input` text. -/
theorem resourceCreateUpdate_success_input (d : ResourceData) (meta : LambdaClient)
    (u : UUID) (h : (resourceCreateUpdate d meta u).ret = .returned none) :
    (d.attrs.conceal_input = true → (resourceCreateUpdate d meta u).d.attrs.input = str "") ∧
    (d.attrs.conceal_input = false →
      (resourceCreateUpdate d meta u).d.attrs.input = d.attrs.input) ∧
    (∃ st, (resourceCreateUpdate d meta u).d.State = some st ∧
      st.Attributes.input = (resourceCreateUpdate d meta u).d.attrs.input) ∧
    (∀ (id : GoString) (recorded : Attributes) (c : Config),
      d = applyHandle id recorded c → c.conceal_input.getD false = false →
      (resourceCreateUpdate d meta u).d.attrs.input = c.input) := by
  have hid := (resourceCreateUpdate_success_identifier d meta u h).1
  obtain ⟨out, _, _, hd⟩ := resourceCreateUpdate_success_handle d meta u h
  have hs : str "" = [] := rfl
  rw [hs] at hid ⊢
  have hpm : (resourceCreateUpdate d meta u).d.partialMode = false := by rw [hd]; rfl
  refine ⟨?_, ?_, ?_, ?_⟩
  · intro hc
    rw [hd]
    simp [createdOrUpdated, hc]
  · intro hc
    rw [hd]
    simp [createdOrUpdated, hc]
  · refine ⟨{ ID := (resourceCreateUpdate d meta u).d.Id,
              Attributes := (resourceCreateUpdate d meta u).d.attrs }, ?_, rfl⟩
    simp [ResourceData.State, hid, hpm]
  · intro id recorded c hdc hc
    rw [hd]
    subst hdc
    simp [createdOrUpdated, applyHandle, plannedAttributes, inputDiffSuppressFunc, diffHandle,
      Config.attributes, hc]

/-- C5 at the first step of `TestLambdaBasedResource_basicLifecycle`: `conceal_input` is
false and the recorded `input` is the configured JSON text. -/
theorem resourceCreateUpdate_success_input_witness :
    (resourceCreateUpdate testCreateHandle
        (mockClient (some (createLambdaInvokeOutput false), none)) testUUID).d.attrs.input =
      str "\x7b\"param\":\"createupdate-input-param-val\"\x7d" :=
  have t := resourceCreateUpdate_success_input testCreateHandle
    (mockClient (some (createLambdaInvokeOutput false), none)) testUUID (by decide)
  (t.2.1 rfl).trans (by decide)

/-- C6: when the client answers with a response that has the payload `p` and no
function error, `resourceCreateUpdate` succeeds and the `result` of the handle, which
is the `result` of the state handed back to the host, is the empty string when
`conceal_result` is true and is `string(p)` when `conceal_result` is false. -/
theorem resourceCreateUpdate_success_result (d : ResourceData) (meta : LambdaClient)
    (u : UUID) (out : InvokeOutput)
    (hresp : meta.respond meta.calls (requestOf (extractLambdaInformation d)) = (some out, none))
    (hfe : out.FunctionError = none) :
    (resourceCreateUpdate d meta u).ret = .returned none ∧
    (d.attrs.conceal_result = true → (resourceCreateUpdate d meta u).d.attrs.result = str "") ∧
    (d.attrs.conceal_result = false →
      (resourceCreateUpdate d meta u).d.attrs.result = toGoString out.Payload) ∧
    (∃ st, (resourceCreateUpdate d meta u).d.State = some st ∧
      st.Attributes.result = (resourceCreateUpdate d meta u).d.attrs.result) := by
  have hd := resourceCreateUpdate_payload d meta u out hresp hfe
  have hret : (resourceCreateUpdate d meta u).ret = .returned none := by rw [hd]
  have hid := (resourceCreateUpdate_success_identifier d meta u hret).1
  have hs : str "" = [] := rfl
  rw [hs] at hid ⊢
  have hpm : (resourceCreateUpdate d meta u).d.partialMode = false := by rw [hd]; rfl
  refine ⟨hret, ?_, ?_, ?_⟩
  · intro hc
    rw [hd]
    simp [createdOrUpdated, hc]
  · intro hc
    rw [hd]
    simp [createdOrUpdated, hc]
  · refine ⟨{ ID := (resourceCreateUpdate d meta u).d.Id,
              Attributes := (resourceCreateUpdate d meta u).d.attrs }, ?_, rfl⟩
    simp [ResourceData.State, hid, hpm]

/-- C6 at the first step of `TestLambdaBasedResource_concealedInput`, where the result
is not concealed: the recorded `result` is the payload `result-val`. -/
theorem resourceCreateUpdate_success_result_witness :
    (resourceCreateUpdate testCreateHandle
        (mockClient (some (createLambdaInvokeOutput false), none)) testUUID).d.attrs.result =
      str "result-val" :=
  have t := resourceCreateUpdate_success_result testCreateHandle
    (mockClient (some (createLambdaInvokeOutput false), none)) testUUID
    (createLambdaInvokeOutput false) rfl rfl
  t.2.2.1 rfl

/-- C7: `resourceCreateUpdate` makes exactly one `Invoke`, of type `RequestResponse`;
function name, qualifier and payload are each the raw configuration's value when that
attribute is not null and the value `d.Get` reads otherwise. For a handle the host
prepares from a configuration, whatever `input` is recorded (also one blanked by
concealment), the request carries the configured function name, the configured
`input`, and the configured qualifier or `$LATEST` when it is omitted. -/
theorem resourceCreateUpdate_invokes_once (d : ResourceData) (meta : LambdaClient) (u : UUID) :
    (resourceCreateUpdate d meta u).meta.calls = meta.calls ++
      [{ FunctionName := some (d.rawConfig.function_name.getD d.attrs.function_name)
         InvocationType := InvocationType.RequestResponse
         Payload := toBytes (d.rawConfig.input.getD d.attrs.input)
         Qualifier := some (d.rawConfig.qualifier.getD d.attrs.qualifier) }] ∧
    (∀ (id : GoString) (recorded : Attributes) (c : Config),
      (resourceCreateUpdate (applyHandle id recorded c) meta u).meta.calls = meta.calls ++
        [{ FunctionName := some c.function_name
           InvocationType := InvocationType.RequestResponse
           Payload := toBytes c.input
           Qualifier := some (c.qualifier.getD (str "$LATEST")) }]) := by
  have key : ∀ d : ResourceData, (resourceCreateUpdate d meta u).meta.calls = meta.calls ++
      [{ FunctionName := some (d.rawConfig.function_name.getD d.attrs.function_name)
         InvocationType := InvocationType.RequestResponse
         Payload := toBytes (d.rawConfig.input.getD d.attrs.input)
         Qualifier := some (d.rawConfig.qualifier.getD d.attrs.qualifier) }] := by
    intro d
    rw [resourceCreateUpdate_client]
    obtain ⟨id, st, av, ⟨rf, rq, ri⟩, pm⟩ := d
    cases rf <;> cases rq <;> cases ri <;>
      simp [LambdaClient.received, requestOf, extractLambdaInformation]
  refine ⟨key d, ?_⟩
  intro id recorded c
  rw [key]
  cases hq : c.qualifier <;>
    simp [applyHandle, plannedAttributes, Config.raw, Config.attributes, defaultQualifier, hq]

/-- C7 at the third step of `TestLambdaBasedResource_concealedInput`: the recorded input
is blank, and the request carries the input of the configuration. -/
theorem resourceCreateUpdate_invokes_once_witness :
    (resourceCreateUpdate
        (applyHandle concealedState.ID concealedState.Attributes
          (concealedConfig (str "a-new-input-val")))
        (mockClient (some (createLambdaInvokeOutput false), none)) testUUID).meta.calls =
      [{ FunctionName := some (str "func-createupdate-name-1")
         InvocationType := InvocationType.RequestResponse
         Payload := some (str "\x7b\"param\":\"a-new-input-val\"\x7d")
         Qualifier := some (str "$LATEST") }] :=
  ((resourceCreateUpdate_invokes_once testCreateHandle
      (mockClient (some (createLambdaInvokeOutput false), none)) testUUID).2
    concealedState.ID concealedState.Attributes (concealedConfig (str "a-new-input-val"))).trans
    (by decide)

/-- C8: with a finalizer block configured, `resourceDelete` makes exactly one `Invoke`,
with the function name, qualifier and payload of the finalizer block; when the
response has no function error the delete succeeds and the identifier is the empty
string afterwards; on a transport error or a function error the delete returns the
error and the handle, its identifier included, is as before. -/
theorem resourceDelete_with_finalizer (d : ResourceData) (meta : LambdaClient)
    (fin : LambdaData) (rest : List LambdaData) (hf : d.attrs.finalizer = fin :: rest) :
    (resourceDelete d meta).meta.calls = meta.calls ++
      [{ FunctionName := some fin.function_name
         InvocationType := InvocationType.RequestResponse
         Payload := toBytes fin.input
         Qualifier := some fin.qualifier }] ∧
    (∀ out, meta.respond meta.calls (requestOf fin) = (some out, none) →
      out.FunctionError = none →
      (resourceDelete d meta).ret = .returned none ∧ (resourceDelete d meta).d.Id = str "" ∧
      (resourceDelete d meta).d.State = none) ∧
    (∀ res e, meta.respond meta.calls (requestOf fin) = (res, some e) →
      (resourceDelete d meta).ret = .returned (some (invocationFailed d.Id e)) ∧
      (resourceDelete d meta).d.Id = d.Id ∧ (resourceDelete d meta).d = d) ∧
    (∀ out fe, meta.respond meta.calls (requestOf fin) = (some out, none) →
      out.FunctionError = some fe →
      (resourceDelete d meta).ret =
        .returned (some (functionReturnedError fin.function_name out.Payload)) ∧
      (resourceDelete d meta).d.Id = d.Id ∧ (resourceDelete d meta).d = d) := by
  refine ⟨?_, ?_, ?_, ?_⟩
  · rw [resourceDelete_client d meta fin rest hf]
    rfl
  · intro out hr hfe
    rw [resourceDelete_payload d meta fin rest out hf hr hfe]
    exact ⟨rfl, rfl, rfl⟩
  · intro res e hr
    rw [resourceDelete_transport d meta fin rest res e hf hr]
    exact ⟨rfl, rfl, rfl⟩
  · intro out fe hr hfe
    rw [resourceDelete_functionError d meta fin rest out fe hf hr hfe]
    exact ⟨rfl, rfl, rfl⟩

/-- C8 at the last delete of `TestLambdaBasedResource_finalizerLambdaError`: the finalizer
is invoked once and the identifier is cleared. -/
theorem resourceDelete_with_finalizer_witness :
    (resourceDelete testExistingHandle
        (mockClient (some (createLambdaInvokeOutput false), none))).meta.calls =
      [{ FunctionName := some (str "func-destroy-name-1")
         InvocationType := InvocationType.RequestResponse
         Payload := some (str "\x7b\"param\":\"destroy-input-param-val\"\x7d")
         Qualifier := some (str "$LATEST") }] ∧
    (resourceDelete testExistingHandle
        (mockClient (some (createLambdaInvokeOutput false), none))).d.Id = str "" :=
  have t := resourceDelete_with_finalizer testExistingHandle
    (mockClient (some (createLambdaInvokeOutput false), none))
    { function_name := str "func-destroy-name-1", qualifier := str "$LATEST",
      input := getInputJson (str "destroy-input-param-val") } [] (by decide)
  ⟨t.1.trans (by decide), (t.2.1 (createLambdaInvokeOutput false) rfl rfl).2.1⟩

/-- C9: without a finalizer block (the `finalizer` list is empty, which is also what
an absent block reads as), `resourceDelete` makes no `Invoke`, returns nil, and leaves
the handle as it was except for the identifier, which is the empty string. -/
theorem resourceDelete_without_finalizer (d : ResourceData) (meta : LambdaClient)
    (hf : d.attrs.finalizer = []) :
    (resourceDelete d meta).meta.calls = meta.calls ∧
    (resourceDelete d meta).ret = .returned none ∧
    (resourceDelete d meta).d.Id = str "" ∧
    (resourceDelete d meta).d = d.SetId (str "") ∧
    (resourceDelete d meta).d.State = none := by
  rw [resourceDelete_noFinalizer d meta hf]
  exact ⟨rfl, rfl, rfl, rfl, rfl⟩

/-- C9 for the configuration of `TestLambdaBasedResource_concealedResult`, which has no
finalizer block: deleting the resource reaches the client with no request. -/
theorem resourceDelete_without_finalizer_witness :
    (resourceDelete { testExistingHandle with
        attrs := { testExistingHandle.attrs with finalizer := [] } }
      (mockClient (none, some expectedError))).meta.calls = [] ∧
    (resourceDelete { testExistingHandle with
        attrs := { testExistingHandle.attrs with finalizer := [] } }
      (mockClient (none, some expectedError))).ret = .returned none :=
  have t := resourceDelete_without_finalizer
    { testExistingHandle with attrs := { testExistingHandle.attrs with finalizer := [] } }
    (mockClient (none, some expectedError)) rfl
  ⟨t.1, t.2.1⟩

/-- C10: the `DiffSuppressFunc` of `input` returns true for every key and every pair of
old and new values when the handle's `conceal_input` is true, and false for all of them
when it is false. Hence, for a recorded resource whose `conceal_input` is true and a
configuration that agrees with the record on every attribute other than `input`, the
plan equals the recorded attributes whatever the configured `input` is, and the apply
enters no handler: the client receives no request and the recorded state stays. -/
theorem input_change_suppressed_when_concealed :
    (∀ (k old new : GoString) (d : ResourceData), d.attrs.conceal_input = true →
      inputDiffSuppressFunc k old new d = true) ∧
    (∀ (k old new : GoString) (d : ResourceData), d.attrs.conceal_input = false →
      inputDiffSuppressFunc k old new d = false) ∧
    (∀ (s : InstanceState) (c : Config) (meta : LambdaClient) (u : UUID),
      s.Attributes.conceal_input = true →
      { c.attributes s.Attributes.result with input := s.Attributes.input } = s.Attributes →
      plannedAttributes s.ID s.Attributes c = s.Attributes ∧
      (hostApply (some s) c meta u).meta.calls = meta.calls ∧
      (hostApply (some s) c meta u).state = some s ∧
      (hostApply (some s) c meta u).ret = .returned none) := by
  refine ⟨fun _ _ _ _ h => h, fun _ _ _ _ h => h, ?_⟩
  intro s c meta u hc hagree
  have hcc : (c.attributes s.Attributes.result).conceal_input = true := by
    have := congrArg Attributes.conceal_input hagree
    simpa [hc] using this
  have hplan : plannedAttributes s.ID s.Attributes c = s.Attributes := by
    simp only [plannedAttributes, inputDiffSuppressFunc, diffHandle]
    rw [if_pos hcc]
    exact hagree
  have hun : attributesUnchanged (plannedAttributes s.ID s.Attributes c) s.Attributes = true := by
    rw [hplan]
    exact attributesUnchanged_self _
  refine ⟨hplan, ?_, ?_, ?_⟩ <;> simp [hostApply, hun]

/-- C10 at the second step of `TestLambdaBasedResource_concealedInput`: the input
parameter changes to `a-new-input-val` while the input is concealed, and the apply
reaches the client with no request. -/
theorem input_change_suppressed_when_concealed_witness :
    plannedAttributes concealedState.ID concealedState.Attributes
        (concealedConfig (str "a-new-input-val")) = concealedState.Attributes ∧
    (hostApply (some concealedState) (concealedConfig (str "a-new-input-val"))
        (mockClient (none, some expectedError)) testUUID).meta.calls = [] ∧
    (hostApply (some concealedState) (concealedConfig (str "a-new-input-val"))
        (mockClient (none, some expectedError)) testUUID).state = some concealedState :=
  have t := input_change_suppressed_when_concealed.2.2 concealedState
    (concealedConfig (str "a-new-input-val")) (mockClient (none, some expectedError)) testUUID
    rfl (by decide)
  ⟨t.1, t.2.1, t.2.2.1⟩

/-- C11, as stated, fails in `TestLambdaBasedResource_concealedInput`: the create of the
configuration with `conceal_input = true` succeeds and records `concealedState`; the
next configuration differs from it in `input` only; applying it reaches the client
with no request at all, not with one. -/
theorem concealed_input_change_invokes_nothing :
    (hostApply none (concealedConfig (str "createupdate-input-param-val"))
        (mockClient (some (createLambdaInvokeOutput false), none)) testUUID).ret =
      .returned none ∧
    (hostApply none (concealedConfig (str "createupdate-input-param-val"))
        (mockClient (some (createLambdaInvokeOutput false), none)) testUUID).state =
      some concealedState ∧
    concealedConfig (str "a-new-input-val") =
      { concealedConfig (str "createupdate-input-param-val") with
        input := getInputJson (str "a-new-input-val") } ∧
    getInputJson (str "a-new-input-val") ≠
      (concealedConfig (str "createupdate-input-param-val")).input ∧
    (hostApply (some concealedState) (concealedConfig (str "a-new-input-val"))
        (mockClient (some (createLambdaInvokeOutput false), none)) testUUID).meta.calls = [] ∧
    (hostApply (some concealedState) (concealedConfig (str "a-new-input-val"))
        (mockClient (some (createLambdaInvokeOutput false), none)) testUUID).meta.calls ≠
      (mockClient (some (createLambdaInvokeOutput false), none)).calls ++
        [configuredRequest (concealedConfig (str "a-new-input-val"))] := by
  refine ⟨by decide, by decide, by decide, by decide, by decide, by decide⟩

/-- C11, amended: take the record a successful apply of a configuration leaves.
Applying the configuration with a different `input` and nothing else changed, while
`conceal_input` is false, makes exactly one `Invoke`, and it carries the new `input`.
Applying the configuration with a different `triggers` map and nothing else changed
makes exactly one `Invoke`, carrying the unchanged configured `input`, whatever
`conceal_input` is. -/
theorem change_of_input_or_triggers_invokes_once (recorded : Option InstanceState)
    (c : Config) (meta0 : LambdaClient) (u0 : UUID) (s : InstanceState)
    (hret : (hostApply recorded c meta0 u0).ret = .returned none)
    (hstate : (hostApply recorded c meta0 u0).state = some s) :
    (∀ (newInput : GoString) (meta : LambdaClient) (u : UUID),
      c.conceal_input.getD false = false → newInput ≠ c.input →
      (hostApply (some s) { c with input := newInput } meta u).meta.calls = meta.calls ++
        [{ FunctionName := some c.function_name
           InvocationType := InvocationType.RequestResponse
           Payload := toBytes newInput
           Qualifier := some (c.qualifier.getD (str "$LATEST")) }]) ∧
    (∀ (newTriggers : List (GoString × GoString)) (meta : LambdaClient) (u : UUID),
      (∃ k, newTriggers.lookup k ≠ c.triggers.lookup k) →
      (hostApply (some s) { c with triggers := newTriggers } meta u).meta.calls = meta.calls ++
        [{ FunctionName := some c.function_name
           InvocationType := InvocationType.RequestResponse
           Payload := toBytes c.input
           Qualifier := some (c.qualifier.getD (str "$LATEST")) }]) := by
  obtain ⟨ht, hi⟩ := hostApply_success_recorded recorded c meta0 u0 s hret hstate
  constructor
  · intro newInput meta u hc hne
    have hin : s.Attributes.input = c.input := hi hc
    have hplanned : (plannedAttributes s.ID s.Attributes { c with input := newInput }).input =
        newInput := by
      simp [plannedAttributes, Config.attributes, inputDiffSuppressFunc, diffHandle, hc]
    have hun : attributesUnchanged (plannedAttributes s.ID s.Attributes { c with input := newInput })
        s.Attributes = false := by
      have hb : ((plannedAttributes s.ID s.Attributes { c with input := newInput }).input ==
          s.Attributes.input) = false := by
        rw [hplanned, hin]
        simpa using hne
      simp [attributesUnchanged, hb]
    rw [hostApply_changed s _ meta u hun]
    rfl
  · intro newTriggers meta u hex
    have hplanned : (plannedAttributes s.ID s.Attributes { c with triggers := newTriggers }).triggers =
        newTriggers := by
      simp [plannedAttributes, Config.attributes]
    have hsm : sameMap newTriggers s.Attributes.triggers = false := by
      cases hb : sameMap newTriggers s.Attributes.triggers with
      | false => rfl
      | true =>
        exfalso
        obtain ⟨k, hk⟩ := hex
        rw [sameMap_iff] at hb ht
        exact hk ((hb k).trans (ht k))
    have hun : attributesUnchanged
        (plannedAttributes s.ID s.Attributes { c with triggers := newTriggers })
        s.Attributes = false := by
      simp [attributesUnchanged, hplanned, hsm]
    rw [hostApply_changed s _ meta u hun]
    rfl

/-- C11, amended, at the third step of `TestLambdaBasedResource_basicLifecycle`: after the
create of `testConfig`, the input parameter changes to `a-new-input-value` and the
apply sends one request with the new payload. -/
theorem change_of_input_or_triggers_invokes_once_witness :
    (hostApply
        (hostApply none testConfig
          (mockClient (some (createLambdaInvokeOutput false), none)) testUUID).state
        { testConfig with input := getInputJson (str "a-new-input-value") }
        (mockClient (some (createLambdaInvokeOutput false), none)) testUUID).meta.calls =
      [{ FunctionName := some (str "func-createupdate-name-1")
         InvocationType := InvocationType.RequestResponse
         Payload := some (str "\x7b\"param\":\"a-new-input-value\"\x7d")
         Qualifier := some (str "$LATEST") }] :=
  have hs : (hostApply none testConfig
      (mockClient (some (createLambdaInvokeOutput false), none)) testUUID).state =
      some { ID := testUUID.String, Attributes := testConfig.attributes (str "result-val") } := by
    decide
  have t := change_of_input_or_triggers_invokes_once none testConfig
    (mockClient (some (createLambdaInvokeOutput false), none)) testUUID
    { ID := testUUID.String, Attributes := testConfig.attributes (str "result-val") }
    (by decide) hs
  hs ▸ (t.1 (getInputJson (str "a-new-input-value"))
    (mockClient (some (createLambdaInvokeOutput false), none)) testUUID rfl (by decide)).trans
    (by decide)

/-- C12: `resourceRead` makes no `Invoke`, returns nil, and leaves the handle as it was:
identifier, `input`, `result`, every other attribute, the recorded state, the raw
configuration and the state handed back to the host are unchanged. -/
theorem resourceRead_leaves_record (d : ResourceData) (meta : LambdaClient) :
    (resourceRead d meta).meta.calls = meta.calls ∧
    (resourceRead d meta).ret = .returned none ∧
    (resourceRead d meta).d = d ∧
    (resourceRead d meta).d.Id = d.Id ∧
    (resourceRead d meta).d.attrs.input = d.attrs.input ∧
    (resourceRead d meta).d.attrs.result = d.attrs.result ∧
    (resourceRead d meta).d.attrs = d.attrs ∧
    (resourceRead d meta).d.state = d.state ∧
    (resourceRead d meta).d.rawConfig = d.rawConfig ∧
    (resourceRead d meta).d.State = d.State := by
  unfold resourceRead
  exact ⟨rfl, rfl, rfl, rfl, rfl, rfl, rfl, rfl, rfl, rfl⟩

end LambdaBased
